import Mathlib

/-
Verification of the token-acquisition orchestration in
`sdk/identity/azure-identity-broker/azure/identity/broker/_browser.py`
(`InteractiveBrowserBrokerCredential._request_token` and `._get_app`).

The Python code is shallowly embedded: the msal client application's
`acquire_token_interactive` method is an external collaborator and is modelled
as a function from the call's parameters to an outcome (a returned result
dictionary, a raised `socket.error`, or any other raised exception).  The
ambient `within_dac` context variable is an explicit boolean parameter.
`_request_token` additionally returns the trace of `acquire_token_interactive`
invocations (their parameter records, in call order), which makes the
"attempt was / was not invoked" properties stateable.
-/

set_option autoImplicit false

namespace Broker

/-- The result dictionary returned by `acquire_token_interactive`.  The code
only ever inspects the `access_token` and `error_description` keys; `error`
and `other` model the remaining provider fields of the dictionary. -/
structure TokenResult where
  access_token : Option String
  error_description : Option String
  error : Option String
  other : List (String × String)
  deriving Repr, DecidableEq

/-- The `prompt` argument: `msal.Prompt.NONE` for the silent OS-account
attempt, the string "select_account" for the interactive attempt. -/
inductive Prompt where
  | NONE
  | select_account
  deriving Repr, DecidableEq

/-- The keyword arguments passed to `app.acquire_token_interactive` at
lines 72-81 and 87-96 of `_browser.py`. -/
structure AcquireParams where
  scopes : List String
  login_hint : Option String
  claims_challenge : Option String
  timeout : Nat
  prompt : Prompt
  port : Option Nat
  parent_window_handle : Option Nat
  enable_msa_passthrough : Bool
  deriving Repr, DecidableEq

/-- Outcome of one `acquire_token_interactive` call: it returns a result
dictionary, raises `socket.error`, or raises some other exception
(identified by a tag). -/
inductive AttemptOutcome where
  | returns (result : TokenResult)
  | socketError
  | otherError (e : Nat)
  deriving Repr, DecidableEq

/-- What `_request_token` does: returns the result dictionary, raises
`CredentialUnavailableError(message)`, raises
`ClientAuthenticationError(message)`, or lets some other exception
propagate. -/
inductive RequestTokenOutcome where
  | token (result : TokenResult)
  | credentialUnavailable (message : String)
  | clientAuthenticationError (message : String)
  | uncaught (e : Nat)
  deriving Repr, DecidableEq

/-- `self._parsed_url` (an optional parsed redirect URI); only its `port`
attribute is read by `_request_token`. -/
structure ParsedUrl where
  port : Option Nat
  deriving Repr, DecidableEq

/-- The per-instance configuration of `InteractiveBrowserBrokerCredential`.
The first three fields are the broker-specific options popped from `kwargs`
in `__init__` (lines 57-61); the rest are the inherited fields of the base
credential that `_request_token` and `_get_app` read. -/
structure CredentialConfig where
  parent_window_handle : Option Nat
  enable_msa_passthrough : Bool
  use_operating_system_account : Bool
  login_hint : Option String
  timeout : Nat
  parsed_url : Option ParsedUrl
  client_id : String
  client_credential : Option String
  authority : String
  regional_authority : Option String
  client : Nat
  instance_discovery : Bool
  enable_support_logging : Bool
  deriving Repr, DecidableEq

/-- `port = self._parsed_url.port if self._parsed_url else None` (line 69). -/
def the_port (cfg : CredentialConfig) : Option Nat :=
  match cfg.parsed_url with
  | some u => u.port
  | none => none

/-- The parameters of the OS-account-silent attempt (lines 72-81):
`prompt=msal.Prompt.NONE`, everything else from the instance configuration
and the per-call arguments. -/
def osParams (cfg : CredentialConfig) (scopes : List String) (claims : Option String) :
    AcquireParams :=
  { scopes := scopes
    login_hint := cfg.login_hint
    claims_challenge := claims
    timeout := cfg.timeout
    prompt := Prompt.NONE
    port := the_port cfg
    parent_window_handle := cfg.parent_window_handle
    enable_msa_passthrough := cfg.enable_msa_passthrough }

/-- The parameters of the interactive attempt (lines 87-96):
`prompt="select_account"`, everything else from the instance configuration
and the per-call arguments. -/
def interactiveParams (cfg : CredentialConfig) (scopes : List String)
    (claims : Option String) : AcquireParams :=
  { scopes := scopes
    login_hint := cfg.login_hint
    claims_challenge := claims
    timeout := cfg.timeout
    prompt := Prompt.select_account
    port := the_port cfg
    parent_window_handle := cfg.parent_window_handle
    enable_msa_passthrough := cfg.enable_msa_passthrough }

/-- Lines 86-109 of `_browser.py`: the interactive attempt and the
classification of its result.  A raised `socket.error` becomes
`CredentialUnavailableError("Couldn't start an HTTP server.")`; a returned
result is classified by the presence of `access_token` and
`error_description` and by `within_dac.get()`; any other exception
propagates. -/
def interactiveAttempt (app : AcquireParams → AttemptOutcome) (p : AcquireParams)
    (within_dac : Bool) : RequestTokenOutcome :=
  match app p with
  | .socketError => .credentialUnavailable "Couldn't start an HTTP server."
  | .otherError e => .uncaught e
  | .returns result =>
    if result.access_token.isNone && result.error_description.isSome then
      if within_dac then .credentialUnavailable (result.error_description.getD "")
      else .clientAuthenticationError (result.error_description.getD "")
    else if result.access_token.isNone then
      if within_dac then .credentialUnavailable "Failed to authenticate user"
      else .clientAuthenticationError "Failed to authenticate user"
    else .token result

/-- `_request_token` (lines 64-109).  `app` is the client application handle
returned by `_get_app`; `within_dac` is the ambient chain-context flag.  The
second component is the trace of `acquire_token_interactive` invocations.
The `wrap_exceptions` decorator is outside this file's source; per the spec
it re-raises the classified errors and lets other exceptions propagate
unmodified, so it is the identity on every outcome modelled here. -/
def _request_token (cfg : CredentialConfig) (app : AcquireParams → AttemptOutcome)
    (scopes : List String) (claims : Option String) (within_dac : Bool) :
    RequestTokenOutcome × List AcquireParams :=
  if cfg.use_operating_system_account then
    match app (osParams cfg scopes claims) with
    | .returns result =>
      if result.access_token.isSome then
        (.token result, [osParams cfg scopes claims])
      else
        (interactiveAttempt app (interactiveParams cfg scopes claims) within_dac,
         [osParams cfg scopes claims, interactiveParams cfg scopes claims])
    | .socketError =>
      (interactiveAttempt app (interactiveParams cfg scopes claims) within_dac,
       [osParams cfg scopes claims, interactiveParams cfg scopes claims])
    | .otherError e => (.uncaught e, [osParams cfg scopes claims])
  else
    (interactiveAttempt app (interactiveParams cfg scopes claims) within_dac,
     [interactiveParams cfg scopes claims])

/-- A constructed `msal.PublicClientApplication` handle, with the keyword
arguments of the construction at lines 133-143 of `_browser.py` as fields.
`token_cache` holds the identity of the cache instance passed in; `uid` is a
fresh tag per construction, modelling Python object identity (two handles
built by separate constructor calls are distinct objects). -/
structure AppHandle where
  client_id : String
  client_credential : Option String
  client_capabilities : Option (List String)
  authority : String
  azure_region : Option String
  token_cache : Nat
  http_client : Nat
  instance_discovery : Bool
  enable_broker_on_windows : Bool
  enable_pii_log : Bool
  uid : Nat
  deriving Repr, DecidableEq

/-- The mutable state `_get_app` reads and writes: the two tenant-to-handle
dictionaries, the two optional token caches (identified by tags), a counter
supplying fresh identity tags, and an instrumentation counter of
`_initialize_cache` invocations. -/
structure MsalState where
  client_applications : List (String × AppHandle)
  cae_client_applications : List (String × AppHandle)
  cache : Option Nat
  cae_cache : Option Nat
  next_id : Nat
  cache_inits : Nat
  deriving Repr, DecidableEq

/-- Dictionary lookup `tenant_id in map` / `map[tenant_id]`. -/
def lookupApp : List (String × AppHandle) → String → Option AppHandle
  | [], _ => none
  | (k, v) :: rest, t => if k = t then some v else lookupApp rest t

/-- The cache selected for the capability mode:
`self._cae_cache` when `enable_cae`, else `self._cache`. -/
def modeCache (st : MsalState) (enable_cae : Bool) : Option Nat :=
  if enable_cae then st.cae_cache else st.cache

/-- The application dictionary selected for the capability mode:
`self._cae_client_applications` when `enable_cae`, else
`self._client_applications`. -/
def modeMap (st : MsalState) (enable_cae : Bool) : List (String × AppHandle) :=
  if enable_cae then st.cae_client_applications else st.client_applications

/-- Modelled from the spec: `self._initialize_cache(is_cae=...)` is a
base-credential collaborator whose code is not in this source file.  Per the
spec's cache-initialization contract, it creates a token cache for the given
mode, records it on the credential (so a later call for the same mode finds
it and does not re-initialize), and returns it. -/
def init_cache (st : MsalState) (is_cae : Bool) : Nat × MsalState :=
  (st.next_id,
   { st with
     next_id := st.next_id + 1
     cache_inits := st.cache_inits + 1
     cache := if is_cae then st.cache else some st.next_id
     cae_cache := if is_cae then some st.next_id else st.cae_cache })

/-- The `app_class(...)` construction at lines 133-143:
`client_capabilities` is `["CP1"]` exactly when CAE is enabled, the authority
is `"{}/{}".format(self._authority, tenant_id)`, and
`enable_broker_on_windows` is forced on. -/
def mkApp (cfg : CredentialConfig) (capabilities : Option (List String))
    (tenant_id : String) (token_cache : Nat) (uid : Nat) : AppHandle :=
  { client_id := cfg.client_id
    client_credential := cfg.client_credential
    client_capabilities := capabilities
    authority := cfg.authority ++ "/" ++ tenant_id
    azure_region := cfg.regional_authority
    token_cache := token_cache
    http_client := cfg.client
    instance_discovery := cfg.instance_discovery
    enable_broker_on_windows := true
    enable_pii_log := cfg.enable_support_logging
    uid := uid }

/-- `client_applications_map[tenant_id] = app_class(...)`: store a newly
constructed handle in the dictionary selected for the mode and consume one
fresh identity tag. -/
def insertApp (st : MsalState) (enable_cae : Bool) (tenant_id : String)
    (a : AppHandle) : MsalState :=
  if enable_cae then
    { st with
      cae_client_applications := (tenant_id, a) :: st.cae_client_applications
      next_id := st.next_id + 1 }
  else
    { st with
      client_applications := (tenant_id, a) :: st.client_applications
      next_id := st.next_id + 1 }

/-- `_get_app` (lines 111-144).  `tenant_id` is the output of the external
`resolve_tenant` collaborator (deterministic in its inputs, per the spec).
Selects the dictionary, capabilities and cache for the mode, initializes the
cache if absent, constructs and stores a handle if the tenant has none, and
returns `client_applications_map[tenant_id]` (`none` would be a `KeyError`;
the theorems show it is always `some`). -/
def _get_app (cfg : CredentialConfig) (st : MsalState) (tenant_id : String)
    (enable_cae : Bool) : Option AppHandle × MsalState :=
  let capabilities : Option (List String) := if enable_cae then some ["CP1"] else none
  let p := match modeCache st enable_cae with
    | some tc => (tc, st)
    | none => init_cache st enable_cae
  let st1 := p.2
  let st2 := match lookupApp (modeMap st1 enable_cae) tenant_id with
    | some _ => st1
    | none => insertApp st1 enable_cae tenant_id
        (mkApp cfg capabilities tenant_id p.1 st1.next_id)
  (lookupApp (modeMap st2 enable_cae) tenant_id, st2)

/-! Concrete sample inputs, used by the witness theorems. -/

/-- A sample per-instance configuration in standalone (non-OS-account) mode. -/
def cfg0 : CredentialConfig :=
  { parent_window_handle := some 7
    enable_msa_passthrough := false
    use_operating_system_account := false
    login_hint := some "user@contoso.com"
    timeout := 300
    parsed_url := none
    client_id := "client"
    client_credential := none
    authority := "login.microsoftonline.com"
    regional_authority := none
    client := 0
    instance_discovery := true
    enable_support_logging := false }

/-- `cfg0` with `use_operating_system_account=True`. -/
def cfgOs : CredentialConfig := { cfg0 with use_operating_system_account := true }

/-- A successful result dictionary. -/
def rTok : TokenResult :=
  { access_token := some "abc", error_description := none, error := none, other := [] }

/-- An error result carrying both `error` and `error_description`. -/
def rDesc : TokenResult :=
  { access_token := none, error_description := some "AADSTS50011: reply url mismatch"
    error := some "invalid_request", other := [] }

/-- An indeterminate result: no `access_token`, no `error_description`. -/
def rEmpty : TokenResult :=
  { access_token := none, error_description := none, error := none, other := [] }

/-- A tokenless result carrying only the `error` field. -/
def rErrOnly : TokenResult :=
  { access_token := none, error_description := none
    error := some "interaction_required", other := [] }

/-- An application whose every acquisition attempt succeeds with `rTok`. -/
def appTok : AcquireParams → AttemptOutcome := fun _ => .returns rTok

/-- An application whose silent (prompt=NONE) attempt raises `socket.error`
and whose interactive attempt succeeds with `rTok`. -/
def appSockThenTok : AcquireParams → AttemptOutcome := fun p =>
  if p.prompt = Prompt.NONE then .socketError else .returns rTok

/-- An application whose every attempt raises `socket.error`. -/
def appSockAll : AcquireParams → AttemptOutcome := fun _ => .socketError

/-- An application whose silent attempt raises a non-socket exception. -/
def appOther : AcquireParams → AttemptOutcome := fun _ => .otherError 3

/-- An application whose every attempt returns the indeterminate `rEmpty`. -/
def appEmpty : AcquireParams → AttemptOutcome := fun _ => .returns rEmpty

/-- An application whose every attempt returns `rErrOnly`. -/
def appErrOnly : AcquireParams → AttemptOutcome := fun _ => .returns rErrOnly

/-- An application whose silent attempt returns the tokenless `rDesc` and
whose interactive attempt succeeds with `rTok`. -/
def appDescThenTok : AcquireParams → AttemptOutcome := fun p =>
  if p.prompt = Prompt.NONE then .returns rDesc else .returns rTok

/-- An application whose every attempt returns the error result `rDesc`. -/
def appDesc : AcquireParams → AttemptOutcome := fun _ => .returns rDesc

/-- The error raised by a `_request_token` outcome, when one is raised by
the classification code: `some (true, m)` for
`CredentialUnavailableError(m)`, `some (false, m)` for
`ClientAuthenticationError(m)`, `none` when no classified error is raised. -/
def raised : RequestTokenOutcome → Option (Bool × String)
  | .credentialUnavailable m => some (true, m)
  | .clientAuthenticationError m => some (false, m)
  | .token _ => none
  | .uncaught _ => none

/-- An empty registry state: no applications, no caches. -/
def st0 : MsalState :=
  { client_applications := []
    cae_client_applications := []
    cache := none
    cae_cache := none
    next_id := 0
    cache_inits := 0 }

example :
    (_request_token cfg0 appTok ["s"] none false).1 = .token rTok := by decide
example :
    (_request_token cfgOs appSockThenTok ["s"] none false).1 = .token rTok := by decide
example :
    (_request_token cfgOs appSockThenTok ["s"] none false).2 =
      [osParams cfgOs ["s"] none, interactiveParams cfgOs ["s"] none] := by decide
example :
    (_request_token cfg0 appSockAll ["s"] none true).1 =
      .credentialUnavailable "Couldn't start an HTTP server." := by decide
example :
    (_request_token cfg0 appEmpty ["s"] none true).1 =
      .credentialUnavailable "Failed to authenticate user" := by decide
example :
    (_request_token cfg0 appErrOnly ["s"] none false).1 =
      .clientAuthenticationError "Failed to authenticate user" := by decide
example :
    (_request_token cfgOs appOther ["s"] none false).1 = .uncaught 3 := by decide
example :
    (_request_token cfg0 appDescThenTok ["s"] none true).1 = .token rTok := by decide
example :
    (_request_token cfg0 (fun _ => .returns rDesc) ["s"] none true).1 =
      .credentialUnavailable "AADSTS50011: reply url mismatch" := by decide
example :
    (_request_token cfg0 (fun _ => .returns rDesc) ["s"] none false).1 =
      .clientAuthenticationError "AADSTS50011: reply url mismatch" := by decide
example :
    (_request_token cfgOs appDescThenTok ["s"] none true).1 = .token rTok := by decide
example :
    (_request_token cfgOs appDescThenTok ["s"] none true).2 =
      [osParams cfgOs ["s"] none, interactiveParams cfgOs ["s"] none] := by decide
example :
    (_get_app cfg0 st0 "organizations" false).1 =
      some (mkApp cfg0 none "organizations" 0 1) := by decide
example :
    (_get_app cfg0 (_get_app cfg0 st0 "organizations" false).2 "organizations" false) =
      _get_app cfg0 st0 "organizations" false := by decide
example :
    ((_get_app cfg0 st0 "organizations" true).1).map AppHandle.client_capabilities =
      some (some ["CP1"]) := by decide

/-! Helper lemmas shared by the claim theorems. -/

/-- The two attempts' parameter records are distinct (their prompts differ),
so a trace holding only the OS-account parameters never contains the
interactive parameters. -/
theorem interactive_ne_os (cfg : CredentialConfig) (scopes : List String)
    (claims : Option String) :
    interactiveParams cfg scopes claims ≠ osParams cfg scopes claims := by
  simp [interactiveParams, osParams]

/-- If the interactive attempt appears in the trace of a `_request_token`
call, the call's outcome is the outcome of the interactive attempt. -/
theorem result_of_reach (cfg : CredentialConfig) (app : AcquireParams → AttemptOutcome)
    (scopes : List String) (claims : Option String) (dac : Bool)
    (hm : interactiveParams cfg scopes claims ∈ (_request_token cfg app scopes claims dac).2) :
    (_request_token cfg app scopes claims dac).1 =
      interactiveAttempt app (interactiveParams cfg scopes claims) dac := by
  by_cases hos : cfg.use_operating_system_account
  · cases hres : app (osParams cfg scopes claims) with
    | returns r =>
      by_cases htok : r.access_token.isSome
      · exfalso
        simp only [_request_token, hos, if_true, hres, htok, List.mem_singleton] at hm
        exact interactive_ne_os cfg scopes claims hm
      · simp [_request_token, hos, hres, htok]
    | socketError => simp [_request_token, hos, hres]
    | otherError e =>
      exfalso
      simp only [_request_token, hos, if_true, hres, List.mem_singleton] at hm
      exact interactive_ne_os cfg scopes claims hm
  · simp [_request_token, hos]

/-! Claim theorems. -/

/-- C2: with `use_operating_system_account` enabled, if the OS-account-silent
attempt returns a result containing `access_token`, that result is returned
immediately and the interactive attempt is never invoked: the trace is
exactly the one silent attempt and does not contain the interactive
parameters. -/
theorem c2_os_token_short_circuits (cfg : CredentialConfig)
    (app : AcquireParams → AttemptOutcome) (scopes : List String)
    (claims : Option String) (dac : Bool) (r : TokenResult)
    (hos : cfg.use_operating_system_account = true)
    (hres : app (osParams cfg scopes claims) = .returns r)
    (htok : r.access_token.isSome) :
    _request_token cfg app scopes claims dac =
      (.token r, [osParams cfg scopes claims]) ∧
    interactiveParams cfg scopes claims ∉ (_request_token cfg app scopes claims dac).2 := by
  have h1 : _request_token cfg app scopes claims dac =
      (.token r, [osParams cfg scopes claims]) := by
    simp [_request_token, hos, hres, htok]
  refine ⟨h1, ?_⟩
  rw [h1]
  simp only [List.mem_singleton]
  exact interactive_ne_os cfg scopes claims

/-- C3: with `use_operating_system_account` enabled, if the OS-account-silent
attempt raises `socket.error`, the error is swallowed: the trace is the
silent attempt followed by exactly one interactive attempt, and the call's
outcome equals that of the same call with the OS-account path disabled
(i.e. the interactive attempt's outcome alone determines the result). -/
theorem c3_os_socket_error_falls_back (cfg : CredentialConfig)
    (app : AcquireParams → AttemptOutcome) (scopes : List String)
    (claims : Option String) (dac : Bool)
    (hos : cfg.use_operating_system_account = true)
    (hsock : app (osParams cfg scopes claims) = .socketError) :
    (_request_token cfg app scopes claims dac).2 =
      [osParams cfg scopes claims, interactiveParams cfg scopes claims] ∧
    (_request_token cfg app scopes claims dac).1 =
      (_request_token { cfg with use_operating_system_account := false }
        app scopes claims dac).1 := by
  constructor
  · simp [_request_token, hos, hsock]
  · simp only [_request_token, hos, if_true, hsock]
    rfl

/-- C7: only `socket.error` from the OS-account-silent attempt is
suppressed: any other exception raised by that attempt propagates out of
`_request_token` unmodified and the interactive attempt is never invoked. -/
theorem c7_other_errors_propagate (cfg : CredentialConfig)
    (app : AcquireParams → AttemptOutcome) (scopes : List String)
    (claims : Option String) (dac : Bool) (e : Nat)
    (hos : cfg.use_operating_system_account = true)
    (herr : app (osParams cfg scopes claims) = .otherError e) :
    _request_token cfg app scopes claims dac =
      (.uncaught e, [osParams cfg scopes claims]) ∧
    interactiveParams cfg scopes claims ∉ (_request_token cfg app scopes claims dac).2 := by
  have h1 : _request_token cfg app scopes claims dac =
      (.uncaught e, [osParams cfg scopes claims]) := by
    simp [_request_token, hos, herr]
  refine ⟨h1, ?_⟩
  rw [h1]
  simp only [List.mem_singleton]
  exact interactive_ne_os cfg scopes claims

/-- C9: with `use_operating_system_account` enabled, if the OS-account-silent
attempt returns a result lacking `access_token`, that result is silently
discarded: the interactive attempt is invoked, and the call's outcome equals
that of the same call with the OS-account path disabled — a computation that
never consults the OS attempt, so the discarded result's `error_description`
cannot reach any returned result or raised error. -/
theorem c9_tokenless_os_result_discarded (cfg : CredentialConfig)
    (app : AcquireParams → AttemptOutcome) (scopes : List String)
    (claims : Option String) (dac : Bool) (r : TokenResult)
    (hos : cfg.use_operating_system_account = true)
    (hres : app (osParams cfg scopes claims) = .returns r)
    (hnt : r.access_token = none) :
    (_request_token cfg app scopes claims dac).2 =
      [osParams cfg scopes claims, interactiveParams cfg scopes claims] ∧
    (_request_token cfg app scopes claims dac).1 =
      (_request_token { cfg with use_operating_system_account := false }
        app scopes claims dac).1 := by
  constructor
  · simp [_request_token, hos, hres, hnt]
  · simp only [_request_token, hos, if_true, hres, hnt, Option.isSome_none,
      Bool.false_eq_true, if_false]
    rfl

/-- C4: whenever the interactive attempt is invoked (it appears in the
trace) and raises `socket.error`, `_request_token` raises
`CredentialUnavailableError("Couldn't start an HTTP server.")`; the chain
context flag `dac` is universally quantified and does not affect this
classification. -/
theorem c4_interactive_socket_error_unavailable (cfg : CredentialConfig)
    (app : AcquireParams → AttemptOutcome) (scopes : List String)
    (claims : Option String) (dac : Bool)
    (hsock : app (interactiveParams cfg scopes claims) = .socketError)
    (hreach : interactiveParams cfg scopes claims ∈
      (_request_token cfg app scopes claims dac).2) :
    (_request_token cfg app scopes claims dac).1 =
      .credentialUnavailable "Couldn't start an HTTP server." := by
  rw [result_of_reach cfg app scopes claims dac hreach]
  simp [interactiveAttempt, hsock]

/-- C1 (counterexample): at a concrete input whose interactive attempt
returns a result lacking both `access_token` and `error_description`, in
chain context, the raised message is "Failed to authenticate user" (capital
F), not the message "failed to authenticate user" stated by the claim. -/
theorem c1_generic_message_counterexample :
    appEmpty (interactiveParams cfg0 ["s"] none) = .returns rEmpty ∧
    rEmpty.access_token = none ∧ rEmpty.error_description = none ∧
    (_request_token cfg0 appEmpty ["s"] none true).1 ≠
      RequestTokenOutcome.credentialUnavailable "failed to authenticate user" ∧
    (_request_token cfg0 appEmpty ["s"] none true).1 =
      RequestTokenOutcome.credentialUnavailable "Failed to authenticate user" := by
  refine ⟨rfl, rfl, rfl, ?_, by decide⟩
  decide

/-- C1 (amended): exhaustive classification of the interactive attempt's
result.  Whenever the interactive attempt is invoked and returns `r`: a
result with `access_token` is returned as success; a result without
`access_token` but with `error_description` raises
`CredentialUnavailableError` with that description in chain context and
`ClientAuthenticationError` with it otherwise; a result with neither raises
the same pair of errors with the generic message
"Failed to authenticate user". -/
theorem c1_classification_table (cfg : CredentialConfig)
    (app : AcquireParams → AttemptOutcome) (scopes : List String)
    (claims : Option String) (dac : Bool) (r : TokenResult)
    (hres : app (interactiveParams cfg scopes claims) = .returns r)
    (hreach : interactiveParams cfg scopes claims ∈
      (_request_token cfg app scopes claims dac).2) :
    (_request_token cfg app scopes claims dac).1 =
      match r.access_token, r.error_description with
      | some _, _ => RequestTokenOutcome.token r
      | none, some d =>
        if dac then RequestTokenOutcome.credentialUnavailable d
        else RequestTokenOutcome.clientAuthenticationError d
      | none, none =>
        if dac then RequestTokenOutcome.credentialUnavailable "Failed to authenticate user"
        else RequestTokenOutcome.clientAuthenticationError "Failed to authenticate user" := by
  rw [result_of_reach cfg app scopes claims dac hreach]
  simp only [interactiveAttempt, hres]
  rcases hat : r.access_token with _ | t <;>
    rcases hed : r.error_description with _ | d <;>
      simp [hat, hed]

/-- C8: every `_request_token` call issues one of three attempt sequences —
interactive only, OS-account only, or OS-account then interactive — and the
two attempts' parameter records (built from the per-instance broker options
and per-call arguments) are identical except for the prompt: `NONE` for the
OS-account attempt, `select_account` for the interactive one. -/
theorem c8_attempt_parameters (cfg : CredentialConfig)
    (app : AcquireParams → AttemptOutcome) (scopes : List String)
    (claims : Option String) (dac : Bool) :
    ((_request_token cfg app scopes claims dac).2 =
        [interactiveParams cfg scopes claims] ∨
      (_request_token cfg app scopes claims dac).2 =
        [osParams cfg scopes claims] ∨
      (_request_token cfg app scopes claims dac).2 =
        [osParams cfg scopes claims, interactiveParams cfg scopes claims]) ∧
    osParams cfg scopes claims =
      { interactiveParams cfg scopes claims with prompt := Prompt.NONE } ∧
    (interactiveParams cfg scopes claims).prompt = Prompt.select_account ∧
    (osParams cfg scopes claims).prompt = Prompt.NONE := by
  refine ⟨?_, rfl, rfl, rfl⟩
  by_cases hos : cfg.use_operating_system_account
  · cases hres : app (osParams cfg scopes claims) with
    | returns r =>
      by_cases htok : r.access_token.isSome
      · right; left; simp [_request_token, hos, hres, htok]
      · right; right; simp [_request_token, hos, hres, htok]
    | socketError => right; right; simp [_request_token, hos, hres]
    | otherError e => right; left; simp [_request_token, hos, hres]
  · left; simp [_request_token, hos]

/-- C10: classification depends only on the presence of `access_token` and
on `error_description`: two interactive results agreeing on those (their
`error` and other provider fields arbitrary) yield the same raised error —
same kind, same message — and a tokenless result with neither field yields
the generic "Failed to authenticate user" message. -/
theorem c10_error_field_irrelevant (cfg : CredentialConfig)
    (app app2 : AcquireParams → AttemptOutcome) (scopes : List String)
    (claims : Option String) (dac : Bool) (r r2 : TokenResult)
    (hos : cfg.use_operating_system_account = false)
    (h : app (interactiveParams cfg scopes claims) = .returns r)
    (h2 : app2 (interactiveParams cfg scopes claims) = .returns r2)
    (hat : r2.access_token.isSome = r.access_token.isSome)
    (hed : r2.error_description = r.error_description) :
    raised (_request_token cfg app scopes claims dac).1 =
      raised (_request_token cfg app2 scopes claims dac).1 ∧
    (r.access_token = none → r.error_description = none →
      (_request_token cfg app scopes claims dac).1 =
        if dac then RequestTokenOutcome.credentialUnavailable "Failed to authenticate user"
        else RequestTokenOutcome.clientAuthenticationError "Failed to authenticate user") := by
  constructor
  · rcases hra : r.access_token with _ | t <;> rcases hra2 : r2.access_token with _ | t2
    · simp [_request_token, hos, interactiveAttempt, h, h2, hra, hra2, hed, raised]
    · simp [hra, hra2] at hat
    · simp [hra, hra2] at hat
    · simp [_request_token, hos, interactiveAttempt, h, h2, hra, hra2, raised]
  · intro hna hnd
    simp [_request_token, hos, interactiveAttempt, h, hna, hnd]

/-- C5: `_get_app` is idempotent per (tenant, capability-mode) key: a second
call with the same key returns the same handle and leaves the whole state —
application dictionaries, caches, the fresh-identity counter and the count
of `_initialize_cache` invocations — unchanged, so the entry is neither
recreated nor evicted and cache initialization is not re-invoked. -/
theorem c5_get_app_idempotent (cfg : CredentialConfig) (st : MsalState) (t : String)
    (cae : Bool) :
    _get_app cfg (_get_app cfg st t cae).2 t cae = _get_app cfg st t cae ∧
    ((_get_app cfg (_get_app cfg st t cae).2 t cae).2).cache_inits =
      ((_get_app cfg st t cae).2).cache_inits := by
  have main : _get_app cfg (_get_app cfg st t cae).2 t cae = _get_app cfg st t cae := by
    cases cae
    · rcases hc : st.cache with _ | c <;>
        rcases hl : lookupApp st.client_applications t with _ | a <;>
          simp [_get_app, modeCache, modeMap, init_cache, insertApp, lookupApp, hc, hl]
    · rcases hc : st.cae_cache with _ | c <;>
        rcases hl : lookupApp st.cae_client_applications t with _ | a <;>
          simp [_get_app, modeCache, modeMap, init_cache, insertApp, lookupApp, hc, hl]
  exact ⟨main, congrArg (fun p => p.2.cache_inits) main⟩

/-- C6: for a tenant present in neither dictionary, a CAE call constructs
its handle in the CAE dictionary with client capabilities `["CP1"]`,
authority `{authority_host}/{tenant}` and the CAE cache, leaving the
standard dictionary and cache untouched; a subsequent standard call for the
same tenant constructs a handle without capabilities bound to the standard
cache, leaving the CAE dictionary untouched; the two handles are
distinct. -/
theorem c6_cae_partition (cfg : CredentialConfig) (st : MsalState) (t : String)
    (h1 : lookupApp st.cae_client_applications t = none)
    (h2 : lookupApp st.client_applications t = none) :
    ∃ a1 a2,
      (_get_app cfg st t true).1 = some a1 ∧
      (_get_app cfg ((_get_app cfg st t true).2) t false).1 = some a2 ∧
      a1.client_capabilities = some ["CP1"] ∧
      a1.authority = cfg.authority ++ "/" ++ t ∧
      some a1.token_cache = ((_get_app cfg st t true).2).cae_cache ∧
      ((_get_app cfg st t true).2).client_applications = st.client_applications ∧
      ((_get_app cfg st t true).2).cache = st.cache ∧
      a2.client_capabilities = none ∧
      some a2.token_cache =
        ((_get_app cfg ((_get_app cfg st t true).2) t false).2).cache ∧
      ((_get_app cfg ((_get_app cfg st t true).2) t false).2).cae_client_applications =
        ((_get_app cfg st t true).2).cae_client_applications ∧
      a1 ≠ a2 := by
  rcases hc1 : st.cae_cache with _ | c1 <;> rcases hc2 : st.cache with _ | c2 <;>
    simp [_get_app, modeCache, modeMap, init_cache, insertApp, lookupApp, mkApp,
      hc1, hc2, h1, h2]

/-! Witnesses: each theorem with hypotheses, applied at a concrete input. -/

/-- Witness for C1 at a concrete error result with an `error_description`,
in chain context. -/
theorem c1_classification_table_witness :
    appDesc (interactiveParams cfg0 ["s"] none) = .returns rDesc ∧
    interactiveParams cfg0 ["s"] none ∈
      (_request_token cfg0 appDesc ["s"] none true).2 ∧
    (_request_token cfg0 appDesc ["s"] none true).1 =
      RequestTokenOutcome.credentialUnavailable "AADSTS50011: reply url mismatch" :=
  ⟨rfl, by decide, by
    have h := c1_classification_table cfg0 appDesc ["s"] none true rDesc rfl (by decide)
    exact h⟩

/-- Witness for C2 at a concrete OS-account success. -/
theorem c2_os_token_short_circuits_witness :
    cfgOs.use_operating_system_account = true ∧
    appTok (osParams cfgOs ["s"] none) = .returns rTok ∧
    rTok.access_token.isSome = true ∧
    (_request_token cfgOs appTok ["s"] none false =
        (.token rTok, [osParams cfgOs ["s"] none]) ∧
      interactiveParams cfgOs ["s"] none ∉
        (_request_token cfgOs appTok ["s"] none false).2) :=
  ⟨rfl, rfl, rfl,
    c2_os_token_short_circuits cfgOs appTok ["s"] none false rTok rfl rfl rfl⟩

/-- Witness for C3 at a concrete OS-account socket error followed by an
interactive success. -/
theorem c3_os_socket_error_falls_back_witness :
    cfgOs.use_operating_system_account = true ∧
    appSockThenTok (osParams cfgOs ["s"] none) = .socketError ∧
    ((_request_token cfgOs appSockThenTok ["s"] none false).2 =
        [osParams cfgOs ["s"] none, interactiveParams cfgOs ["s"] none] ∧
      (_request_token cfgOs appSockThenTok ["s"] none false).1 =
        (_request_token { cfgOs with use_operating_system_account := false }
          appSockThenTok ["s"] none false).1) :=
  ⟨rfl, by decide,
    c3_os_socket_error_falls_back cfgOs appSockThenTok ["s"] none false rfl (by decide)⟩

/-- Witness for C4 at a concrete interactive socket error, in chain
context. -/
theorem c4_interactive_socket_error_unavailable_witness :
    appSockAll (interactiveParams cfg0 ["s"] none) = .socketError ∧
    interactiveParams cfg0 ["s"] none ∈
      (_request_token cfg0 appSockAll ["s"] none true).2 ∧
    (_request_token cfg0 appSockAll ["s"] none true).1 =
      .credentialUnavailable "Couldn't start an HTTP server." :=
  ⟨rfl, by decide,
    c4_interactive_socket_error_unavailable cfg0 appSockAll ["s"] none true rfl (by decide)⟩

/-- Witness for C6 at the empty registry state. -/
theorem c6_cae_partition_witness :
    lookupApp st0.cae_client_applications "organizations" = none ∧
    lookupApp st0.client_applications "organizations" = none ∧
    (∃ a1 a2,
      (_get_app cfg0 st0 "organizations" true).1 = some a1 ∧
      (_get_app cfg0 ((_get_app cfg0 st0 "organizations" true).2) "organizations" false).1 =
        some a2 ∧
      a1.client_capabilities = some ["CP1"] ∧
      a1.authority = cfg0.authority ++ "/" ++ "organizations" ∧
      some a1.token_cache = ((_get_app cfg0 st0 "organizations" true).2).cae_cache ∧
      ((_get_app cfg0 st0 "organizations" true).2).client_applications =
        st0.client_applications ∧
      ((_get_app cfg0 st0 "organizations" true).2).cache = st0.cache ∧
      a2.client_capabilities = none ∧
      some a2.token_cache =
        ((_get_app cfg0 ((_get_app cfg0 st0 "organizations" true).2)
          "organizations" false).2).cache ∧
      ((_get_app cfg0 ((_get_app cfg0 st0 "organizations" true).2)
          "organizations" false).2).cae_client_applications =
        ((_get_app cfg0 st0 "organizations" true).2).cae_client_applications ∧
      a1 ≠ a2) :=
  ⟨rfl, rfl, c6_cae_partition cfg0 st0 "organizations" rfl rfl⟩

/-- Witness for C7 at a concrete non-socket exception from the OS-account
attempt. -/
theorem c7_other_errors_propagate_witness :
    cfgOs.use_operating_system_account = true ∧
    appOther (osParams cfgOs ["s"] none) = .otherError 3 ∧
    (_request_token cfgOs appOther ["s"] none false =
        (.uncaught 3, [osParams cfgOs ["s"] none]) ∧
      interactiveParams cfgOs ["s"] none ∉
        (_request_token cfgOs appOther ["s"] none false).2) :=
  ⟨rfl, rfl, c7_other_errors_propagate cfgOs appOther ["s"] none false 3 rfl rfl⟩

/-- Witness for C9 at a concrete tokenless OS-account result followed by an
interactive success. -/
theorem c9_tokenless_os_result_discarded_witness :
    cfgOs.use_operating_system_account = true ∧
    appDescThenTok (osParams cfgOs ["s"] none) = .returns rDesc ∧
    rDesc.access_token = none ∧
    ((_request_token cfgOs appDescThenTok ["s"] none true).2 =
        [osParams cfgOs ["s"] none, interactiveParams cfgOs ["s"] none] ∧
      (_request_token cfgOs appDescThenTok ["s"] none true).1 =
        (_request_token { cfgOs with use_operating_system_account := false }
          appDescThenTok ["s"] none true).1) :=
  ⟨rfl, by decide, rfl,
    c9_tokenless_os_result_discarded cfgOs appDescThenTok ["s"] none true rDesc
      (by decide) rfl rfl⟩

/-- Witness for C10 at a tokenless result carrying only the `error` field,
compared with the fully indeterminate result. -/
theorem c10_error_field_irrelevant_witness :
    cfg0.use_operating_system_account = false ∧
    appErrOnly (interactiveParams cfg0 ["s"] none) = .returns rErrOnly ∧
    appEmpty (interactiveParams cfg0 ["s"] none) = .returns rEmpty ∧
    rEmpty.access_token.isSome = rErrOnly.access_token.isSome ∧
    rEmpty.error_description = rErrOnly.error_description ∧
    (raised (_request_token cfg0 appErrOnly ["s"] none false).1 =
        raised (_request_token cfg0 appEmpty ["s"] none false).1 ∧
      (rErrOnly.access_token = none → rErrOnly.error_description = none →
        (_request_token cfg0 appErrOnly ["s"] none false).1 =
          if false then RequestTokenOutcome.credentialUnavailable "Failed to authenticate user"
          else RequestTokenOutcome.clientAuthenticationError "Failed to authenticate user")) :=
  ⟨rfl, rfl, rfl, rfl, rfl,
    c10_error_field_irrelevant cfg0 appErrOnly appEmpty ["s"] none false rErrOnly rEmpty
      rfl rfl rfl rfl rfl⟩

end Broker
